import Mathlib

/-
  Verification development for the fotrab automated trading system.

  Shallow embedding of the decision-and-lifecycle engine:
  * signal aggregation     (src/core/data_driven_strategy.py, src/utils/optimized_strategy.py)
  * risk gate and sizing   (src/core/trade_executor.py)
  * position lifecycle     (src/core/position_manager.py)
  * indicator engine (RSI) (src/core/market_data.py)
  * scheduler cycles       (src/main.py live_trading, src/core/demo_tester.py)

  Python floats are modelled by ℚ, extended with IEEE special values (PFloat)
  where the code can produce inf/NaN; fallible lookups by Option; the
  try/except wrappers by total functions returning the handler's value on
  the error paths.
-/

namespace Fotrab

/-- The three-valued signal strings "BUY" / "SELL" / "NO_SIGNAL" used
throughout the Python strategies. -/
inductive Signal
  | BUY
  | SELL
  | NO_SIGNAL
deriving DecidableEq, Repr

open Signal

/-- `valid_signals = [s for s in signals if s != "NO_SIGNAL"]`
(data_driven_strategy.py line 115, optimized_strategy.py line 93). -/
def validVotes (votes : List Signal) : List Signal :=
  votes.filter (fun s => decide (s ≠ NO_SIGNAL))

/-- Ratio-mode aggregation, `DataDrivenStrategy._data_driven_strategy`
lines 115-134: drop NO_SIGNAL votes, return NO_SIGNAL on no valid votes,
else BUY if `buy_count >= total_valid * confidence_threshold`, else SELL
on the mirror test, else NO_SIGNAL.  (`TradingStrategy._scalping_strategy`
lines 113-130 is the same aggregation with the threshold 0.6 written as
`buy_signals / total_valid >= 0.6`.) -/
def aggregateRatio (votes : List Signal) (th : ℚ) : Signal :=
  let valid := validVotes votes
  if valid.isEmpty then NO_SIGNAL
  else if ((valid.length : ℚ) * th ≤ (valid.count BUY : ℚ)) then BUY
  else if ((valid.length : ℚ) * th ≤ (valid.count SELL : ℚ)) then SELL
  else NO_SIGNAL

/-- Count-mode aggregation, `OptimizedStrategy._optimized_scalping_strategy`
lines 93-110: drop NO_SIGNAL votes, NO_SIGNAL on no valid votes, else BUY if
`buy_count >= min_confirmations`, else SELL on the mirror test, else
NO_SIGNAL. -/
def aggregateCount (votes : List Signal) (minConf : ℕ) : Signal :=
  let valid := validVotes votes
  if valid.isEmpty then NO_SIGNAL
  else if minConf ≤ valid.count BUY then BUY
  else if minConf ≤ valid.count SELL then SELL
  else NO_SIGNAL

/-- Every valid (non-abstain) vote is a BUY or a SELL, so the two counts
partition the valid votes. -/
lemma validVotes_count_add (votes : List Signal) :
    (validVotes votes).count BUY + (validVotes votes).count SELL
      = (validVotes votes).length := by
  induction votes with
  | nil => rfl
  | cons v vs ih =>
    cases v <;> simp [validVotes, List.filter, List.count_cons] at ih ⊢ <;> omega

/-- C4: In ratio mode the aggregator drops ABSTAIN votes, returns NONE when
no valid vote remains, and (for any threshold above 1/2, in particular the
configured 0.6) returns BUY exactly when `buy/validCount` meets the
threshold and SELL exactly when `sell/validCount` meets it; concretely,
2 BUY and 1 SELL under threshold 0.6 aggregate to BUY. -/
theorem C4_ratio_mode_aggregation :
    (∀ (votes : List Signal) (th : ℚ), 1/2 < th →
      (aggregateRatio votes th = BUY ↔
        (validVotes votes).length ≠ 0 ∧
          th ≤ ((validVotes votes).count BUY : ℚ) / ((validVotes votes).length : ℚ)) ∧
      (aggregateRatio votes th = SELL ↔
        (validVotes votes).length ≠ 0 ∧
          th ≤ ((validVotes votes).count SELL : ℚ) / ((validVotes votes).length : ℚ)) ∧
      ((validVotes votes).length = 0 → aggregateRatio votes th = NO_SIGNAL)) ∧
    aggregateRatio [BUY, BUY, SELL] (3/5) = BUY := by
  constructor
  · intro votes th hth
    by_cases h0 : validVotes votes = []
    · refine ⟨?_, ?_, ?_⟩ <;> simp [aggregateRatio, h0]
    · have hne : (validVotes votes).isEmpty = false := by
        cases hv : validVotes votes with
        | nil => exact absurd hv h0
        | cons a l => rfl
      have hlen : (validVotes votes).length ≠ 0 := fun h =>
        h0 (List.length_eq_zero.mp h)
      have hpos : (0 : ℚ) < ((validVotes votes).length : ℚ) := by
        exact_mod_cast Nat.pos_of_ne_zero hlen
      have hdiv : ∀ c : ℕ, (th ≤ (c : ℚ) / ((validVotes votes).length : ℚ)) ↔
          (((validVotes votes).length : ℚ) * th ≤ (c : ℚ)) := by
        intro c
        rw [le_div_iff₀ hpos, mul_comm]
      have hsum : ((validVotes votes).count BUY : ℚ) + ((validVotes votes).count SELL : ℚ)
          = ((validVotes votes).length : ℚ) := by
        exact_mod_cast validVotes_count_add votes
      -- both counts cannot meet a threshold above one half
      have hdraw : ¬ ((((validVotes votes).length : ℚ) * th ≤ ((validVotes votes).count BUY : ℚ)) ∧
          (((validVotes votes).length : ℚ) * th ≤ ((validVotes votes).count SELL : ℚ))) := by
        rintro ⟨hb, hs⟩
        nlinarith
      by_cases hb : (((validVotes votes).length : ℚ) * th ≤ ((validVotes votes).count BUY : ℚ))
      · have hres : aggregateRatio votes th = BUY := by
          simp [aggregateRatio, hne, hb]
        have hs : ¬ (((validVotes votes).length : ℚ) * th ≤ ((validVotes votes).count SELL : ℚ)) :=
          fun hs => hdraw ⟨hb, hs⟩
        refine ⟨?_, ?_, fun h => absurd h hlen⟩
        · rw [hres]
          exact iff_of_true rfl ⟨hlen, (hdiv _).mpr hb⟩
        · rw [hres]
          exact iff_of_false (by simp) (fun h' => hs ((hdiv _).mp h'.2))
      · by_cases hs : (((validVotes votes).length : ℚ) * th ≤ ((validVotes votes).count SELL : ℚ))
        · have hres : aggregateRatio votes th = SELL := by
            simp [aggregateRatio, hne, hb, hs]
          refine ⟨?_, ?_, fun h => absurd h hlen⟩
          · rw [hres]
            exact iff_of_false (by simp) (fun h' => hb ((hdiv _).mp h'.2))
          · rw [hres]
            exact iff_of_true rfl ⟨hlen, (hdiv _).mpr hs⟩
        · have hres : aggregateRatio votes th = NO_SIGNAL := by
            simp [aggregateRatio, hne, hb, hs]
          refine ⟨?_, ?_, fun h => absurd h hlen⟩
          · rw [hres]
            exact iff_of_false (by simp) (fun h' => hb ((hdiv _).mp h'.2))
          · rw [hres]
            exact iff_of_false (by simp) (fun h' => hs ((hdiv _).mp h'.2))
  · have hf : validVotes [BUY, BUY, SELL] = [BUY, BUY, SELL] := rfl
    have hne : ([BUY, BUY, SELL] : List Signal).isEmpty = false := rfl
    have hc : List.count BUY [BUY, BUY, SELL] = 2 := rfl
    have hl : ([BUY, BUY, SELL] : List Signal).length = 3 := rfl
    have hcond : (3:ℚ) * (3/5) ≤ 2 := by norm_num
    simp [aggregateRatio, hf, hne, hc, hl, hcond]

/-- Witness for C4 at the configured threshold 0.6 and the spec's vote set. -/
theorem C4_ratio_mode_aggregation_witness :
    aggregateRatio [BUY, BUY, SELL] (3/5) = BUY := by
  have h2 : ((validVotes [BUY, BUY, SELL]).count BUY : ℚ) = 2 := by
    rw [show List.count BUY (validVotes [BUY, BUY, SELL]) = 2 from rfl]; norm_num
  have h3 : (((validVotes [BUY, BUY, SELL]).length : ℕ) : ℚ) = 3 := by
    rw [show (validVotes [BUY, BUY, SELL]).length = 3 from rfl]; norm_num
  exact ((C4_ratio_mode_aggregation.1 [BUY, BUY, SELL] (3/5) (by norm_num)).1).mpr
    ⟨by decide, by rw [h2, h3]; norm_num⟩

/-- C5: count mode with `min_confirmations = 2`: votes 2 BUY / 1 SELL /
2 ABSTAIN aggregate to BUY, and 1 BUY / 1 SELL / 3 ABSTAIN aggregate to
NONE. -/
theorem C5_count_mode_examples :
    aggregateCount [BUY, BUY, SELL, NO_SIGNAL, NO_SIGNAL] 2 = BUY ∧
    aggregateCount [BUY, SELL, NO_SIGNAL, NO_SIGNAL, NO_SIGNAL] 2 = NO_SIGNAL := by
  constructor <;> decide

/-- Counterexample to C6 as stated: in count mode with
`min_confirmations = 2`, a draw of 2 BUY and 2 SELL aggregates to BUY
(the BUY branch of the if/elif chain is tested first), not NONE. -/
theorem C6_draw_counterexample :
    aggregateCount [BUY, BUY, SELL, SELL] 2 = BUY ∧ BUY ≠ NO_SIGNAL := by
  constructor <;> decide

/-- C6 (amended): in either aggregation mode, whenever both sides meet the
active threshold in the same cycle, the aggregated decision is BUY, because
the BUY side is tested first and takes precedence; in particular 2 BUY and
2 SELL under `min_confirmations = 2` give BUY. -/
theorem C6_draw_resolves_to_buy :
    (∀ (votes : List Signal) (minConf : ℕ),
      (validVotes votes).length ≠ 0 →
      minConf ≤ (validVotes votes).count BUY →
      minConf ≤ (validVotes votes).count SELL →
      aggregateCount votes minConf = BUY) ∧
    (∀ (votes : List Signal) (th : ℚ),
      (validVotes votes).length ≠ 0 →
      ((validVotes votes).length : ℚ) * th ≤ ((validVotes votes).count BUY : ℚ) →
      ((validVotes votes).length : ℚ) * th ≤ ((validVotes votes).count SELL : ℚ) →
      aggregateRatio votes th = BUY) := by
  constructor
  · intro votes minConf h0 hb _
    have hne : ¬ (validVotes votes).isEmpty := by
      cases h : validVotes votes with
      | nil => rw [h] at h0; simp at h0
      | cons a l => simp [List.isEmpty]
    simp [aggregateCount, hne, hb]
  · intro votes th h0 hb _
    have hne : ¬ (validVotes votes).isEmpty := by
      cases h : validVotes votes with
      | nil => rw [h] at h0; simp at h0
      | cons a l => simp [List.isEmpty]
    simp [aggregateRatio, hne, hb]

/-- Witness for C6's amended theorem at the spec's draw example. -/
theorem C6_draw_resolves_to_buy_witness :
    aggregateCount [BUY, BUY, SELL, SELL] 2 = BUY :=
  C6_draw_resolves_to_buy.1 [BUY, BUY, SELL, SELL] 2 (by decide) (by decide) (by decide)

/-! ## Risk gate and position sizer (src/core/trade_executor.py) -/

/-- `leadsWith sub l` : `sub` is an initial run of `l` (character lists). -/
def leadsWith : List Char → List Char → Bool
  | [], _ => true
  | _ :: _, [] => false
  | a :: as, b :: bs => a == b && leadsWith as bs

/-- `hasSeq sub l` : `sub` occurs contiguously inside `l`. -/
def hasSeq (sub : List Char) : List Char → Bool
  | [] => sub.isEmpty
  | a :: t => leadsWith sub (a :: t) || hasSeq sub t

/-- Python's `sub in symbol` substring test on strings. -/
def strContains (s sub : String) : Bool := hasSeq sub.data s.data

/-- Per-instrument-class sizing parameters chosen in
`TradeExecutor._calculate_position_size` lines 83-101. -/
structure SizingParams where
  stopLossPips : ℚ
  pipValue : ℚ
  minVolume : ℚ
  maxVolume : ℚ
deriving DecidableEq, Repr

/-- The `if 'XAU' in symbol or 'GOLD' in symbol / elif 'BTC' or 'ETH' / else`
classification of lines 84-101: gold 80/0.01/0.01/1.0, crypto
150/0.001/0.001/0.1, forex 6/10/0.01/1.0 (6 = `default_stop_loss_pips`). -/
def sizingParams (symbol : String) : SizingParams :=
  if strContains symbol "XAU" || strContains symbol "GOLD" then
    ⟨80, 1/100, 1/100, 1⟩
  else if strContains symbol "BTC" || strContains symbol "ETH" then
    ⟨150, 1/1000, 1/1000, 1/10⟩
  else
    ⟨6, 10, 1/100, 1⟩

/-- Python's `round(x, 3)`: rounding to the nearest multiple of 1/1000
(tie-breaking never matters at the inputs the claims exercise). -/
def round3 (x : ℚ) : ℚ := ((round (x * 1000) : ℤ) : ℚ) / 1000

/-- The clamp used by the spec's formula: `max(minSize, min(x, maxSize))`,
exactly the `max(min_volume, min(position_size, max_volume))` of line 107. -/
def clampQ (x lo hi : ℚ) : ℚ := max lo (min x hi)

/-- `TradeExecutor._calculate_position_size` lines 71-112: on a missing
account (or any failure) return the fixed fallback 0.01; otherwise
`risk_amount = balance * (max_daily_loss_percent/100) / 3`, divide by
`stop_loss_pips * pip_value`, clamp into the class volume bounds and round
to 3 decimals.  `balance?` is `mt5.account_info()`: `none` models the
`account_info is None` / exception paths. -/
def calculatePositionSize (balance? : Option ℚ) (maxDailyLossPercent : ℚ)
    (symbol : String) : ℚ :=
  match balance? with
  | none => 1/100
  | some balance =>
    let riskAmount := balance * (maxDailyLossPercent / 100) / 3
    let p := sizingParams symbol
    let positionSize := riskAmount / (p.stopLossPips * p.pipValue)
    round3 (max p.minVolume (min positionSize p.maxVolume))

/-- Rounding to 3 decimals keeps any value at least `c` (with `c` a positive
multiple of 1/1000) strictly positive. -/
lemma round3_pos {c x : ℚ} (hc : 1 ≤ c * 1000) (hcx : c ≤ x) : 0 < round3 x := by
  have h1 : (1 : ℤ) ≤ round (x * 1000) := by
    rw [round_eq, Int.le_floor]
    push_cast
    nlinarith
  have h2 : (0 : ℚ) < ((round (x * 1000) : ℤ) : ℚ) := by
    exact_mod_cast lt_of_lt_of_le zero_lt_one h1
  unfold round3
  positivity

/-- Every instrument class has a minimum volume of at least 0.001. -/
lemma sizingParams_minVolume_ge (symbol : String) :
    1 ≤ (sizingParams symbol).minVolume * 1000 := by
  unfold sizingParams
  split_ifs <;> norm_num

/-- Counterexample to C1 as stated: on a computation failure (missing
account info) the sizer for a crypto symbol returns the fixed 0.01 fallback
of line 78/112, not the crypto class minimum 0.001. -/
theorem C1_sizer_fallback_counterexample :
    calculatePositionSize none 3 "BTCUSD" = 1/100 ∧
    (sizingParams "BTCUSD").minVolume = 1/1000 ∧
    ¬ ((1 : ℚ)/100 = 1/1000) := by
  refine ⟨rfl, rfl, by norm_num⟩

/-- C1 (amended): with account info available the sizer returns
`round(clamp(riskAmount/(stopDistance*pipValue), minSize, maxSize), 3)`
with `riskAmount = balance*(p/100)/3` and the class parameters of the
symbol; B=5000, p=3.0 on a standard pair gives 0.833; the result is always
strictly positive; and on any computation failure it falls back to the
fixed default 0.01 (the class minimum for metals and standard pairs, but
not for crypto). -/
theorem C1_position_sizing :
    (∀ (B p : ℚ) (symbol : String),
      calculatePositionSize (some B) p symbol =
        round3 (clampQ (B * (p / 100) / 3 /
            ((sizingParams symbol).stopLossPips * (sizingParams symbol).pipValue))
          (sizingParams symbol).minVolume (sizingParams symbol).maxVolume)) ∧
    calculatePositionSize (some 5000) 3 "EURUSD" = 833/1000 ∧
    (∀ (balance? : Option ℚ) (p : ℚ) (symbol : String),
      0 < calculatePositionSize balance? p symbol) ∧
    (∀ (p : ℚ) (symbol : String), calculatePositionSize none p symbol = 1/100) := by
  refine ⟨fun B p symbol => rfl, ?_, ?_, fun p symbol => rfl⟩
  · have hparams : sizingParams "EURUSD" = ⟨6, 10, 1/100, 1⟩ := rfl
    show round3 (max (sizingParams "EURUSD").minVolume
      (min (5000 * ((3:ℚ) / 100) / 3 /
        ((sizingParams "EURUSD").stopLossPips * (sizingParams "EURUSD").pipValue))
        (sizingParams "EURUSD").maxVolume)) = 833/1000
    rw [hparams]
    have hinner : max ((1:ℚ)/100) (min (5000 * ((3:ℚ) / 100) / 3 / (6 * 10)) 1) = 5/6 := by
      norm_num
    rw [hinner]
    rw [round3, round_eq]
    norm_num
  · intro balance? p symbol
    match balance? with
    | none => norm_num [calculatePositionSize]
    | some B =>
      exact round3_pos (sizingParams_minVolume_ge symbol)
        (le_max_left _ _)

/-! ## Risk management gate (src/core/trade_executor.py lines 19-47, 188-242) -/

/-- `mt5.account_info()` snapshot: balance and equity. -/
structure AccountInfo where
  balance : ℚ
  equity : ℚ
deriving DecidableEq, Repr

/-- `Config.get_risk_settings()` (src/config/settings.py lines 24-28). -/
structure RiskSettings where
  maxDailyLossPercent : ℚ
  maxAccountDrawdown : ℚ
deriving DecidableEq, Repr

/-- A bid/ask tick from `mt5.symbol_info_tick`. -/
structure Tick where
  bid : ℚ
  ask : ℚ
deriving DecidableEq, Repr

/-- Requests the engine sends to the external gateway, plus the analysis
step marker used for the scheduler-ordering claims. -/
inductive TradeEvent
  | closeReq (ticket : ℕ)
  | analyze (symbol : String)
  | orderReq (symbol : String) (sig : Signal)
deriving DecidableEq, Repr

/-- `TradeExecutor._check_risk_management` lines 19-47: missing account info
(or an exception) blocks; then the daily-loss check
`daily_pnl <= -max_daily_loss` blocks; then the drawdown check
`(balance - equity)/balance*100 >= max_account_drawdown` blocks; otherwise
the gate passes. -/
def checkRiskManagement (rs : RiskSettings) (acct : Option AccountInfo) : Bool :=
  match acct with
  | none => false
  | some a =>
    if a.equity - a.balance ≤ -(a.balance * (rs.maxDailyLossPercent / 100)) then false
    else if (a.balance - a.equity) / a.balance * 100 ≥ rs.maxAccountDrawdown then false
    else true

/-- `TradeExecutor._check_max_positions` lines 49-69: `None` position list
means no open positions (passes); otherwise block when
`current_positions >= max_positions`. -/
def checkMaxPositions (posCount : Option ℕ) (maxPos : ℕ) : Bool :=
  match posCount with
  | none => true
  | some c => if maxPos ≤ c then false else true

/-- The external state `TradeExecutor.execute_trade` consults, in the order
the code reads it. -/
structure ExecEnv where
  connected : Bool
  risk : RiskSettings
  account : Option AccountInfo
  positionsCount : Option ℕ
  maxPositions : ℕ
  tick : Option Tick
  symbolExists : Bool
  orderAccepted : Bool
deriving DecidableEq, Repr

/-- `TradeExecutor.execute_trade` lines 188-335, as the returned success
flag together with the order requests sent to the gateway: connection,
risk gate, max-positions gate, tick and account fetches and the signal
check all short-circuit to `(False, no request)`; only after position
sizing and the symbol-info check does the single `order_send` happen. -/
def executeTrade (env : ExecEnv) (symbol : String) (sig : Signal) :
    Bool × List TradeEvent :=
  if env.connected = false then (false, [])
  else if checkRiskManagement env.risk env.account = false then (false, [])
  else if checkMaxPositions env.positionsCount env.maxPositions = false then (false, [])
  else
    match env.tick with
    | none => (false, [])
    | some _ =>
      match env.account with
      | none => (false, [])
      | some a =>
        if sig = NO_SIGNAL then (false, [])
        else
          let lotSize := calculatePositionSize (some a.balance) env.risk.maxDailyLossPercent symbol
          if lotSize ≤ 0 then (false, [])
          else if env.symbolExists = false then (false, [])
          else (env.orderAccepted, [TradeEvent.orderReq symbol sig])

/-- C2: the daily-loss check blocks exactly when
`equity - balance <= -balance*(maxDailyLossPercent/100)` (when it does not,
the gate blocks only on drawdown); any blocked account makes
`execute_trade` return failure with no order request sent; concretely,
balance 5000, equity 4800, 3% limit: -200 <= -150, so the trade is
blocked before any order request. -/
theorem C2_daily_loss_gate :
    (∀ (rs : RiskSettings) (a : AccountInfo),
      a.equity - a.balance ≤ -(a.balance * (rs.maxDailyLossPercent / 100)) →
      checkRiskManagement rs (some a) = false) ∧
    (∀ (rs : RiskSettings) (a : AccountInfo),
      ¬ (a.equity - a.balance ≤ -(a.balance * (rs.maxDailyLossPercent / 100))) →
      (checkRiskManagement rs (some a) = false ↔
        rs.maxAccountDrawdown ≤ (a.balance - a.equity) / a.balance * 100)) ∧
    (∀ (env : ExecEnv) (symbol : String) (sig : Signal) (a : AccountInfo),
      env.account = some a →
      a.equity - a.balance ≤ -(a.balance * (env.risk.maxDailyLossPercent / 100)) →
      executeTrade env symbol sig = (false, [])) ∧
    ((4800 : ℚ) - 5000 ≤ -(5000 * ((3:ℚ) / 100)) ∧
      checkRiskManagement ⟨3, 10⟩ (some ⟨5000, 4800⟩) = false ∧
      executeTrade ⟨true, ⟨3, 10⟩, some ⟨5000, 4800⟩, some 0, 3, some ⟨1, 1⟩, true, true⟩
        "EURUSD" BUY = (false, [])) := by
  have hblock : ∀ (rs : RiskSettings) (a : AccountInfo),
      a.equity - a.balance ≤ -(a.balance * (rs.maxDailyLossPercent / 100)) →
      checkRiskManagement rs (some a) = false := by
    intro rs a h
    simp [checkRiskManagement, h]
  have hconc : (4800 : ℚ) - 5000 ≤ -(5000 * ((3:ℚ) / 100)) := by norm_num
  refine ⟨hblock, ?_, ?_, hconc, hblock _ _ hconc, ?_⟩
  · intro rs a h
    simp only [checkRiskManagement, if_neg h]
    split_ifs with h2
    · exact iff_of_true rfl h2
    · exact iff_of_false (by simp) h2
  · intro env symbol sig a hacct h
    have hrisk : checkRiskManagement env.risk env.account = false := by
      rw [hacct]
      exact hblock _ _ h
    by_cases hc : env.connected = false
    · simp [executeTrade, hc]
    · simp [executeTrade, hc, hrisk]
  · have hrisk : checkRiskManagement ⟨3, 10⟩ (some ⟨5000, 4800⟩) = false :=
      hblock _ _ hconc
    simp [executeTrade, hrisk]

/-- Witness for C2 at the spec's concrete account: balance 5000, equity
4800, 3% daily-loss limit. -/
theorem C2_daily_loss_gate_witness :
    checkRiskManagement ⟨3, 10⟩ (some ⟨5000, 4800⟩) = false ∧
    executeTrade ⟨true, ⟨3, 10⟩, some ⟨5000, 4800⟩, some 0, 3, some ⟨1, 1⟩, true, true⟩
      "EURUSD" BUY = (false, []) :=
  ⟨C2_daily_loss_gate.1 ⟨3, 10⟩ ⟨5000, 4800⟩ (by norm_num),
    C2_daily_loss_gate.2.2.1
      ⟨true, ⟨3, 10⟩, some ⟨5000, 4800⟩, some 0, 3, some ⟨1, 1⟩, true, true⟩
      "EURUSD" BUY ⟨5000, 4800⟩ rfl (by norm_num)⟩

/-! ## Position lifecycle manager (src/core/position_manager.py lines 30-69) -/

/-- MT5 position type: `mt5.ORDER_TYPE_BUY` (0) or `mt5.ORDER_TYPE_SELL`. -/
inductive Side
  | buy
  | sell
deriving DecidableEq, Repr

/-- One open position as read back from `mt5.positions_get()`. -/
structure PositionRec where
  ticket : ℕ
  symbol : String
  side : Side
  volume : ℚ
  priceOpen : ℚ
  time : ℚ
deriving DecidableEq, Repr

/-- Which of the three manual exit triggers fired. -/
inductive ExitReason
  | takeProfit
  | stopLoss
  | timeExit
deriving DecidableEq, Repr

/-- Lines 41-48: unrealized profit from the current bid (BUY) or ask (SELL),
`profit = (price - open) * volume * 100000` (sign mirrored for SELL), then
`profit_pips = profit / (volume * 10)`; no per-instrument branching. -/
def profitPips (pos : PositionRec) (tick : Tick) : ℚ :=
  let profit :=
    match pos.side with
    | Side.buy => (tick.bid - pos.priceOpen) * pos.volume * 100000
    | Side.sell => (pos.priceOpen - tick.ask) * pos.volume * 100000
  profit / (pos.volume * 10)

/-- `PositionManager._check_position_management` lines 30-69: a missing tick
returns with no request; otherwise take-profit (`profit_pips >= 9`), then
stop-loss (`profit_pips <= -6`), then time exit (`position_age > 1800`),
each `return`ing immediately, so the first true trigger issues the single
close request and the later triggers are not evaluated. -/
def checkPositionManagement (pos : PositionRec) (tick? : Option Tick) (now : ℚ) :
    Option ExitReason :=
  match tick? with
  | none => none
  | some t =>
    let pips := profitPips pos t
    if 9 ≤ pips then some ExitReason.takeProfit
    else if pips ≤ -6 then some ExitReason.stopLoss
    else if 1800 < now - pos.time then some ExitReason.timeExit
    else none

/-- C3: per position and cycle the triggers are evaluated in the order
take-profit (>= 9 pips), stop-loss (<= -6 pips), time exit (age > 30 min);
the first true trigger yields the one close request and the rest are not
evaluated; the exit price is the bid for a BUY and the ask for a SELL; and
a BUY opened at 1.10000 reaches take-profit at bid 1.10090 (exactly 9
pips), never below it. -/
theorem C3_exit_triggers :
    (∀ (pos : PositionRec) (t : Tick) (now : ℚ),
      9 ≤ profitPips pos t →
      checkPositionManagement pos (some t) now = some ExitReason.takeProfit) ∧
    (∀ (pos : PositionRec) (t : Tick) (now : ℚ),
      profitPips pos t < 9 → profitPips pos t ≤ -6 →
      checkPositionManagement pos (some t) now = some ExitReason.stopLoss) ∧
    (∀ (pos : PositionRec) (t : Tick) (now : ℚ),
      -6 < profitPips pos t → profitPips pos t < 9 → 1800 < now - pos.time →
      checkPositionManagement pos (some t) now = some ExitReason.timeExit) ∧
    (∀ (pos : PositionRec) (t : Tick) (now : ℚ),
      -6 < profitPips pos t → profitPips pos t < 9 → now - pos.time ≤ 1800 →
      checkPositionManagement pos (some t) now = none) ∧
    (∀ (pos : PositionRec) (t t' : Tick), pos.side = Side.buy → t.bid = t'.bid →
      profitPips pos t = profitPips pos t') ∧
    (∀ (pos : PositionRec) (t t' : Tick), pos.side = Side.sell → t.ask = t'.ask →
      profitPips pos t = profitPips pos t') ∧
    (∀ (ask now : ℚ),
      checkPositionManagement ⟨1, "EURUSD", Side.buy, 1/100, 11/10, 0⟩
        (some ⟨11009/10000, ask⟩) now = some ExitReason.takeProfit) ∧
    (∀ (bid ask : ℚ), bid < 11009/10000 →
      profitPips ⟨1, "EURUSD", Side.buy, 1/100, 11/10, 0⟩ ⟨bid, ask⟩ < 9) := by
  have htp : ∀ (pos : PositionRec) (t : Tick) (now : ℚ), 9 ≤ profitPips pos t →
      checkPositionManagement pos (some t) now = some ExitReason.takeProfit := by
    intro pos t now h
    simp [checkPositionManagement, h]
  refine ⟨htp, ?_, ?_, ?_, ?_, ?_, ?_, ?_⟩
  · intro pos t now h9 h6
    simp [checkPositionManagement, not_le.mpr h9, h6]
  · intro pos t now h6 h9 ht
    simp [checkPositionManagement, not_le.mpr h9, not_le.mpr h6, ht]
  · intro pos t now h6 h9 ht
    simp [checkPositionManagement, not_le.mpr h9, not_le.mpr h6, not_lt.mpr ht]
  · intro pos t t' hs hb
    simp [profitPips, hs, hb]
  · intro pos t t' hs ha
    simp [profitPips, hs, ha]
  · intro ask now
    have hp : profitPips ⟨1, "EURUSD", Side.buy, 1/100, 11/10, 0⟩ ⟨11009/10000, ask⟩ = 9 := by
      simp [profitPips]
      norm_num
    exact htp _ _ _ hp.ge
  · intro bid ask h
    simp only [profitPips]
    rw [div_lt_iff₀ (by norm_num)]
    nlinarith

/-- Witness for C3: the spec's BUY at 1.10000 with bid 1.10090 triggers
take-profit. -/
theorem C3_exit_triggers_witness :
    checkPositionManagement ⟨1, "EURUSD", Side.buy, 1/100, 11/10, 0⟩
      (some ⟨11009/10000, 11011/10000⟩) 0 = some ExitReason.takeProfit :=
  C3_exit_triggers.1 ⟨1, "EURUSD", Side.buy, 1/100, 11/10, 0⟩ ⟨11009/10000, 11011/10000⟩ 0
    (by norm_num [profitPips])

/-- C10: for nonzero volume the pip count the manager compares against the
take-profit and stop-loss thresholds equals `(bid - open) * 10000` for a BUY and
`(open - ask) * 10000` for a SELL — the volume cancels — and the formula
ignores the symbol entirely, so gold and crypto positions are measured with
the same contract multiplier 100000 and pip divisor `volume * 10`. -/
theorem C10_pip_count_formula :
    ∀ (pos : PositionRec) (t : Tick), pos.volume ≠ 0 →
      (pos.side = Side.buy → profitPips pos t = (t.bid - pos.priceOpen) * 10000) ∧
      (pos.side = Side.sell → profitPips pos t = (pos.priceOpen - t.ask) * 10000) ∧
      (∀ (pos' : PositionRec), pos'.side = pos.side → pos'.volume = pos.volume →
        pos'.priceOpen = pos.priceOpen → profitPips pos' t = profitPips pos t) := by
  intro pos t hvol
  refine ⟨?_, ?_, ?_⟩
  · intro hs
    simp only [profitPips, hs]
    field_simp
    ring
  · intro hs
    simp only [profitPips, hs]
    field_simp
    ring
  · intro pos' h1 h2 h3
    cases hs : pos.side with
    | buy => simp [profitPips, h1, hs, h2, h3]
    | sell => simp [profitPips, h1, hs, h2, h3]

/-- Witness for C10 on a gold symbol with volume 0.01. -/
theorem C10_pip_count_formula_witness :
    profitPips ⟨2, "XAUUSD", Side.buy, 1/100, 2650, 0⟩ ⟨2651, 2652⟩ =
      ((2651 : ℚ) - 2650) * 10000 :=
  (C10_pip_count_formula ⟨2, "XAUUSD", Side.buy, 1/100, 2650, 0⟩ ⟨2651, 2652⟩
    (by norm_num)).1 rfl

/-! ## RSI indicator (src/core/market_data.py lines 76-83) -/

/-- A pandas float scalar: finite value, positive or negative infinity, or
NaN.  `MarketData.calculate_rsi` divides by the rolling average loss with
no zero check, so IEEE-754 division semantics are part of the embedding:
`gain/0` is `inf` when `gain > 0` and NaN when `gain = 0`. -/
inductive PFloat
  | val (q : ℚ)
  | inf
  | ninf
  | nan
deriving DecidableEq, Repr

namespace PFloat

/-- `pd.isna`. -/
def isna : PFloat → Bool
  | nan => true
  | _ => false

def fneg : PFloat → PFloat
  | val q => val (-q)
  | inf => ninf
  | ninf => inf
  | nan => nan

/-- IEEE addition (`inf + ninf` is NaN; NaN propagates). -/
def fadd : PFloat → PFloat → PFloat
  | val a, val b => val (a + b)
  | val _, inf => inf
  | val _, ninf => ninf
  | inf, val _ => inf
  | ninf, val _ => ninf
  | inf, inf => inf
  | ninf, ninf => ninf
  | inf, ninf => nan
  | ninf, inf => nan
  | nan, _ => nan
  | _, nan => nan

def fsub (a b : PFloat) : PFloat := fadd a (fneg b)

/-- IEEE division: finite/0 gives a signed infinity (0/0 NaN), finite/inf
gives 0, inf/inf and anything involving NaN give NaN. -/
def fdiv : PFloat → PFloat → PFloat
  | val a, val b =>
    if b = 0 then
      if a = 0 then nan else if 0 < a then inf else ninf
    else val (a / b)
  | val _, inf => val 0
  | val _, ninf => val 0
  | inf, val b => if b < 0 then ninf else inf
  | ninf, val b => if b < 0 then inf else ninf
  | inf, inf => nan
  | inf, ninf => nan
  | ninf, inf => nan
  | ninf, ninf => nan
  | nan, _ => nan
  | _, nan => nan

/-- IEEE `<` against a rational constant: NaN compares false. -/
def fltC : PFloat → ℚ → Bool
  | val a, c => decide (a < c)
  | inf, _ => false
  | ninf, _ => true
  | nan, _ => false

/-- IEEE `>` against a rational constant: NaN compares false. -/
def fgtC : PFloat → ℚ → Bool
  | val a, c => decide (c < a)
  | inf, _ => true
  | ninf, _ => false
  | nan, _ => false

/-- IEEE `<=` against a rational constant: NaN compares false. -/
def fleC : PFloat → ℚ → Bool
  | val a, c => decide (a ≤ c)
  | inf, _ => false
  | ninf, _ => true
  | nan, _ => false

/-- IEEE `>=` against a rational constant: NaN compares false. -/
def fgeC : PFloat → ℚ → Bool
  | val a, c => decide (c ≤ a)
  | inf, _ => true
  | ninf, _ => false
  | nan, _ => false

/-- IEEE `>` between two float scalars: any NaN operand compares false. -/
def fgt : PFloat → PFloat → Bool
  | val a, val b => decide (b < a)
  | inf, val _ => true
  | val _, ninf => true
  | inf, ninf => true
  | _, _ => false

/-- IEEE `<` between two float scalars: any NaN operand compares false. -/
def flt : PFloat → PFloat → Bool
  | val a, val b => decide (a < b)
  | val _, inf => true
  | ninf, val _ => true
  | ninf, inf => true
  | _, _ => false

/-- Multiplication by a rational constant (`0 * inf` is NaN). -/
def fmulC : PFloat → ℚ → PFloat
  | val a, c => val (a * c)
  | inf, c => if 0 < c then inf else if c < 0 then ninf else nan
  | ninf, c => if 0 < c then ninf else if c < 0 then inf else nan
  | nan, _ => nan

end PFloat

/-- `prices.diff()` with the leading NaN dropped: consecutive price deltas. -/
def priceDeltas (prices : List ℚ) : List ℚ :=
  List.zipWith (fun a b => a - b) prices.tail prices

/-- The real deltas inside the 14-entry rolling window at the newest bar
(the newest `min(14, count)` deltas).  When exactly 14 prices exist the
pandas window additionally holds the leading 0 that `where` substituted for
the NaN of `prices.diff()`; that 0 contributes nothing to the gain/loss
sums, so it is omitted here. -/
def lastWindow (prices : List ℚ) : List ℚ :=
  let d := priceDeltas prices
  d.drop (d.length - 14)

/-- `delta.where(delta > 0, 0).rolling(14).mean()` at the newest bar: the
window sum (the substituted leading 0 adds nothing) divided by 14. -/
def gainAvg (prices : List ℚ) : ℚ :=
  ((lastWindow prices).map (fun d => max d 0)).sum / 14

/-- `(-delta.where(delta < 0, 0)).rolling(14).mean()` at the newest bar:
the window sum (the substituted leading 0 adds nothing) divided by 14. -/
def lossAvg (prices : List ℚ) : ℚ :=
  ((lastWindow prices).map (fun d => max (-d) 0)).sum / 14

/-- `MarketData.calculate_rsi` lines 76-83 evaluated at the newest bar:
`rs = gain / loss; rsi = 100 - (100 / (1 + rs))` in pandas float
arithmetic.  `where` runs before `rolling(14)`, so the leading NaN of
`prices.diff()` is already replaced by 0 (`NaN > 0` and `NaN < 0` are
False); the rolling mean at the newest bar is therefore numeric as soon
as 14 prices exist, and NaN below that. -/
def calculateRsiLast (prices : List ℚ) : PFloat :=
  if prices.length < 14 then PFloat.nan
  else
    let rs := PFloat.fdiv (PFloat.val (gainAvg prices)) (PFloat.val (lossAvg prices))
    PFloat.fsub (PFloat.val 100)
      (PFloat.fdiv (PFloat.val 100) (PFloat.fadd (PFloat.val 1) rs))

/-- `TradingStrategy._rsi_strategy` lines 132-145: abstain on NaN, BUY when
`rsi < 35`, SELL when `rsi > 65`. -/
def rsiStrategy (rsi : PFloat) : Signal :=
  if rsi.isna then NO_SIGNAL
  else if rsi.fltC 35 then BUY
  else if rsi.fgtC 65 then SELL
  else NO_SIGNAL

/-- Average gains are sums of nonnegative terms. -/
lemma gainAvg_nonneg (prices : List ℚ) : 0 ≤ gainAvg prices := by
  unfold gainAvg
  have h : 0 ≤ ((lastWindow prices).map (fun d => max d 0)).sum := by
    apply List.sum_nonneg
    intro x hx
    rcases List.mem_map.mp hx with ⟨d, -, rfl⟩
    exact le_max_right d 0
  positivity

/-- Fewer than 14 prices: the rolling window is unfilled, so the RSI is NaN. -/
lemma calculateRsiLast_short {prices : List ℚ} (h : prices.length < 14) :
    calculateRsiLast prices = PFloat.nan := by
  simp [calculateRsiLast, h]

/-- Zero average loss and zero average gain (flat window): `0/0` is NaN and
the RSI is NaN. -/
lemma calculateRsiLast_flat {prices : List ℚ} (h : ¬ prices.length < 14)
    (hl : lossAvg prices = 0) (hg : gainAvg prices = 0) :
    calculateRsiLast prices = PFloat.nan := by
  simp [calculateRsiLast, h, hl, hg, PFloat.fdiv, PFloat.fadd, PFloat.fsub, PFloat.fneg]

/-- Zero average loss with positive average gain: `rs = inf`,
`rsi = 100 - 100/inf = 100`. -/
lemma calculateRsiLast_all_gain {prices : List ℚ} (h : ¬ prices.length < 14)
    (hl : lossAvg prices = 0) (hg : gainAvg prices ≠ 0) :
    calculateRsiLast prices = PFloat.val 100 := by
  have hgpos : 0 < gainAvg prices := lt_of_le_of_ne (gainAvg_nonneg prices) (Ne.symm hg)
  simp [calculateRsiLast, h, hl, hg, hgpos, PFloat.fdiv, PFloat.fadd, PFloat.fsub, PFloat.fneg]

/-- Average losses are sums of nonnegative terms. -/
lemma lossAvg_nonneg (prices : List ℚ) : 0 ≤ lossAvg prices := by
  unfold lossAvg
  have h : 0 ≤ ((lastWindow prices).map (fun d => max (-d) 0)).sum := by
    apply List.sum_nonneg
    intro x hx
    rcases List.mem_map.mp hx with ⟨d, -, rfl⟩
    exact le_max_right (-d) 0
  positivity

/-- Nonzero average loss: the RSI is the finite textbook value (both
averages are nonnegative, so `1 + rs` can never vanish). -/
lemma calculateRsiLast_finite {prices : List ℚ} (h : ¬ prices.length < 14)
    (hl : lossAvg prices ≠ 0) :
    calculateRsiLast prices =
      PFloat.val (100 - 100 / (1 + gainAvg prices / lossAvg prices)) := by
  have hlpos : 0 < lossAvg prices := lt_of_le_of_ne (lossAvg_nonneg prices) (Ne.symm hl)
  have hrs : 0 ≤ gainAvg prices / lossAvg prices :=
    div_nonneg (gainAvg_nonneg prices) hlpos.le
  have hz : (1 : ℚ) + gainAvg prices / lossAvg prices ≠ 0 :=
    ne_of_gt (by linarith)
  simp [calculateRsiLast, h, hl, PFloat.fdiv, PFloat.fadd, PFloat.fsub, PFloat.fneg, hz]
  ring

/-- The strictly rising 14-bar price series — the smallest series whose
rolling window pandas fills — used as the concrete RSI input. -/
def p14 : List ℚ := [1, 2, 3, 4, 5, 6, 7, 8, 9, 10, 11, 12, 13, 14]

/-- Counterexample to C7 as stated: on 14 strictly rising prices (the
smallest window pandas fills, since `where` replaces the leading diff NaN
by 0 before `rolling(14)`) the 14-bar average loss is zero, yet the RSI is
reported as the numeric value 100 (not as "no opinion") and the RSI
sub-strategy answers SELL instead of abstaining. -/
theorem C7_rsi_counterexample :
    lossAvg p14 = 0 ∧
    calculateRsiLast p14 = PFloat.val 100 ∧
    rsiStrategy (calculateRsiLast p14) = SELL ∧
    PFloat.val 100 ≠ PFloat.nan := by
  have hlen : ¬ p14.length < 14 := by norm_num [p14]
  have hl : lossAvg p14 = 0 := by norm_num [lossAvg, lastWindow, priceDeltas, p14]
  have hg : gainAvg p14 = 13/14 := by norm_num [gainAvg, lastWindow, priceDeltas, p14]
  have h100 : calculateRsiLast p14 = PFloat.val 100 :=
    calculateRsiLast_all_gain hlen hl (by rw [hg]; norm_num)
  refine ⟨hl, h100, ?_, by simp⟩
  rw [h100]
  norm_num [rsiStrategy, PFloat.isna, PFloat.fltC, PFloat.fgtC]

/-- C7 (amended): the RSI at the newest bar is NaN — and the RSI
sub-strategy abstains — exactly when fewer than 14 prices exist (pandas
fills the window at 14 prices already, the leading diff NaN having been
replaced by 0 before `rolling`) or the window is flat (zero average gain
and loss); when the average loss is zero with positive average gain the
code reports RSI = 100 and the sub-strategy answers SELL; with a nonzero
average loss the RSI is the finite textbook value. -/
theorem C7_rsi_undefined_cases :
    (∀ prices : List ℚ, prices.length < 14 →
      calculateRsiLast prices = PFloat.nan) ∧
    (∀ prices : List ℚ, ¬ prices.length < 14 →
      lossAvg prices = 0 → gainAvg prices = 0 →
      calculateRsiLast prices = PFloat.nan) ∧
    (∀ prices : List ℚ, ¬ prices.length < 14 →
      lossAvg prices = 0 → gainAvg prices ≠ 0 →
      calculateRsiLast prices = PFloat.val 100 ∧
        rsiStrategy (calculateRsiLast prices) = SELL) ∧
    (∀ prices : List ℚ, ¬ prices.length < 14 → lossAvg prices ≠ 0 →
      calculateRsiLast prices =
        PFloat.val (100 - 100 / (1 + gainAvg prices / lossAvg prices))) ∧
    (∀ x : PFloat, x.isna → rsiStrategy x = NO_SIGNAL) := by
  refine ⟨fun p h => calculateRsiLast_short h,
    fun p h hl hg => calculateRsiLast_flat h hl hg,
    fun p h hl hg => ?_,
    fun p h hl => calculateRsiLast_finite h hl,
    fun x hx => by simp [rsiStrategy, hx]⟩
  have h100 := calculateRsiLast_all_gain h hl hg
  refine ⟨h100, ?_⟩
  rw [h100]
  norm_num [rsiStrategy, PFloat.isna, PFloat.fltC, PFloat.fgtC]

/-- Witness for C7's amended theorem at the rising 14-price series. -/
theorem C7_rsi_undefined_cases_witness :
    calculateRsiLast p14 = PFloat.val 100 ∧
      rsiStrategy (calculateRsiLast p14) = SELL :=
  C7_rsi_undefined_cases.2.2.1 p14
    (by norm_num [p14])
    (by norm_num [lossAvg, lastWindow, priceDeltas, p14])
    (by norm_num [gainAvg, lastWindow, priceDeltas, p14])

/-! ## Data-driven sub-strategies and market analysis
(src/core/data_driven_strategy.py lines 35-238) -/

/-- One row of the indicator DataFrame (`df.iloc[k]`): indicator columns
are NaN while their rolling window is unfilled; `close` is always a real
price; `tick_volume` is `none` when the column is absent (the `in` check of
`_volume_analysis_strategy`). -/
structure Frame where
  rsi : PFloat
  sma10 : PFloat
  sma20 : PFloat
  bbUpper : PFloat
  bbMiddle : PFloat
  bbLower : PFloat
  stochK : PFloat
  stochD : PFloat
  close : ℚ
  tickVolume : Option ℚ
deriving DecidableEq, Repr

/-- `DataDrivenStrategy._optimized_rsi_strategy` lines 136-152 with the
parameters of lines 22-26: abstain on NaN, then 25/70/35/65 zones. -/
def rsiStrategyDD (latest : Frame) : Signal :=
  if latest.rsi.isna then NO_SIGNAL
  else if latest.rsi.fleC 25 then BUY
  else if latest.rsi.fgeC 70 then SELL
  else if latest.rsi.fleC 35 then BUY
  else if latest.rsi.fgeC 65 then SELL
  else NO_SIGNAL

/-- `DataDrivenStrategy._optimized_bb_strategy` lines 154-173: abstain on
NaN bands, BUY within 30% of the band width above the lower band, SELL
within 30% below the upper band. -/
def bbStrategyDD (latest : Frame) (priceBid : ℚ) : Signal :=
  if latest.bbUpper.isna || latest.bbLower.isna then NO_SIGNAL
  else
    let bbWidth := PFloat.fsub latest.bbUpper latest.bbLower
    if PFloat.fgeC (PFloat.fadd latest.bbLower (PFloat.fmulC bbWidth (3/10))) priceBid then BUY
    else if PFloat.fleC (PFloat.fsub latest.bbUpper (PFloat.fmulC bbWidth (3/10))) priceBid then
      SELL
    else NO_SIGNAL

/-- `DataDrivenStrategy._optimized_stoch_strategy` lines 175-189. -/
def stochStrategyDD (latest : Frame) : Signal :=
  if latest.stochK.isna || latest.stochD.isna then NO_SIGNAL
  else if latest.stochK.fleC 20 || latest.stochD.fleC 20 then BUY
  else if latest.stochK.fgeC 80 || latest.stochD.fgeC 80 then SELL
  else NO_SIGNAL

/-- `DataDrivenStrategy._optimized_ma_strategy` lines 191-204: no NaN
guard, but IEEE comparisons with a NaN SMA are false on both sides, so the
vote falls through to NO_SIGNAL. -/
def maStrategyDD (latest _prev : Frame) : Signal :=
  if PFloat.fgt latest.sma10 latest.sma20 then BUY
  else if PFloat.flt latest.sma10 latest.sma20 then SELL
  else NO_SIGNAL

/-- `DataDrivenStrategy._momentum_strategy` lines 206-223: abstain below 3
bars, else the percent change over the last 3 closes against 0.05. -/
def momentumStrategyDD (closes : List ℚ) : Signal :=
  if closes.length < 3 then NO_SIGNAL
  else
    match closes.drop (closes.length - 3) with
    | [a, _, c] =>
      let momentum := (c - a) / a * 100
      if 1/20 < momentum then BUY
      else if momentum < -(1/20) then SELL
      else NO_SIGNAL
    | _ => NO_SIGNAL

/-- `DataDrivenStrategy._volume_analysis_strategy` lines 225-238: abstain
unless both rows carry tick volume; vote with the price-change sign on a
30% volume increase. -/
def volumeStrategyDD (latest prev : Frame) : Signal :=
  match latest.tickVolume, prev.tickVolume with
  | some cv, some pv =>
    if pv * (13/10) < cv then
      if 0 < latest.close - prev.close then BUY
      else if latest.close - prev.close < 0 then SELL
      else NO_SIGNAL
    else NO_SIGNAL
  | _, _ => NO_SIGNAL

/-- The six votes collected by `_data_driven_strategy` lines 105-112. -/
def dataDrivenSignals (latest prev : Frame) (priceBid : ℚ) (closes : List ℚ) :
    List Signal :=
  [rsiStrategyDD latest, bbStrategyDD latest priceBid, stochStrategyDD latest,
    maStrategyDD latest prev, momentumStrategyDD closes, volumeStrategyDD latest prev]

/-- `DataDrivenStrategy._data_driven_strategy` lines 102-134: the six votes
aggregated in ratio mode at the configured `required_confidence = 0.6`. -/
def dataDrivenStrategy (latest prev : Frame) (priceBid : ℚ) (closes : List ℚ) : Signal :=
  aggregateRatio (dataDrivenSignals latest prev priceBid closes) (3/5)

/-- `DataDrivenStrategy.analyze_market` lines 35-75 (the time filter of
lines 97-100 returns True): `none`/empty frames and a missing tick return
NO_SIGNAL; `df.iloc[-2]` on fewer than 2 rows raises IndexError, which the
`except` handler of lines 73-75 turns into NO_SIGNAL — modelled by the
catch-all match arm. -/
def analyzeMarketDD (df : Option (List Frame)) (price : Option Tick) : Signal :=
  match df with
  | none => NO_SIGNAL
  | some frames =>
    if frames.isEmpty then NO_SIGNAL
    else
      match price with
      | none => NO_SIGNAL
      | some p =>
        match frames.getLast?, frames.dropLast.getLast? with
        | some latest, some prev =>
          dataDrivenStrategy latest prev p.bid (frames.map (fun f => f.close))
        | _, _ => NO_SIGNAL

/-- NaN on the left of an IEEE `>` compares false. -/
lemma PFloat.fgt_nan_left (y : PFloat) : PFloat.fgt PFloat.nan y = false := by
  cases y <;> rfl

/-- NaN on the right of an IEEE `>` compares false. -/
lemma PFloat.fgt_nan_right (x : PFloat) : PFloat.fgt x PFloat.nan = false := by
  cases x <;> rfl

/-- NaN on the left of an IEEE `<` compares false. -/
lemma PFloat.flt_nan_left (y : PFloat) : PFloat.flt PFloat.nan y = false := by
  cases y <;> rfl

/-- NaN on the right of an IEEE `<` compares false. -/
lemma PFloat.flt_nan_right (x : PFloat) : PFloat.flt x PFloat.nan = false := by
  cases x <;> rfl

/-- C8: with fewer than 2 bars, or with an indicator whose window is
unfilled (NaN) or data otherwise missing, every consuming sub-strategy
votes NO_SIGNAL (never BUY or SELL), an all-abstain roster aggregates to
NO_SIGNAL, and `analyze_market` returns NO_SIGNAL instead of letting the
IndexError escape to its caller. -/
theorem C8_insufficient_data_abstains :
    (∀ latest : Frame, latest.rsi.isna → rsiStrategyDD latest = NO_SIGNAL) ∧
    (∀ x : PFloat, x.isna → rsiStrategy x = NO_SIGNAL) ∧
    (∀ (latest : Frame) (price : ℚ), latest.bbUpper.isna ∨ latest.bbLower.isna →
      bbStrategyDD latest price = NO_SIGNAL) ∧
    (∀ latest : Frame, latest.stochK.isna ∨ latest.stochD.isna →
      stochStrategyDD latest = NO_SIGNAL) ∧
    (∀ latest prev : Frame, latest.sma10.isna ∨ latest.sma20.isna →
      maStrategyDD latest prev = NO_SIGNAL) ∧
    (∀ closes : List ℚ, closes.length < 3 → momentumStrategyDD closes = NO_SIGNAL) ∧
    (∀ latest prev : Frame, latest.tickVolume = none ∨ prev.tickVolume = none →
      volumeStrategyDD latest prev = NO_SIGNAL) ∧
    (∀ votes : List Signal, (∀ v ∈ votes, v = NO_SIGNAL) → ∀ th : ℚ,
      aggregateRatio votes th = NO_SIGNAL) ∧
    (∀ (df : Option (List Frame)) (price : Option Tick),
      (∀ frames, df = some frames → frames.length < 2) →
      analyzeMarketDD df price = NO_SIGNAL) := by
  refine ⟨?_, ?_, ?_, ?_, ?_, ?_, ?_, ?_, ?_⟩
  · intro latest h
    simp [rsiStrategyDD, h]
  · intro x h
    simp [rsiStrategy, h]
  · intro latest price h
    rcases h with h | h <;> simp [bbStrategyDD, h]
  · intro latest h
    rcases h with h | h <;> simp [stochStrategyDD, h]
  · intro latest prev h
    rcases h with h | h
    · cases h10 : latest.sma10 <;> simp [PFloat.isna, h10] at h
      simp [maStrategyDD, h10, PFloat.fgt_nan_left, PFloat.flt_nan_left]
    · cases h20 : latest.sma20 <;> simp [PFloat.isna, h20] at h
      simp [maStrategyDD, h20, PFloat.fgt_nan_right, PFloat.flt_nan_right]
  · intro closes h
    simp [momentumStrategyDD, h]
  · intro latest prev h
    rcases h with h | h
    · cases hp : prev.tickVolume <;> simp [volumeStrategyDD, h, hp]
    · cases hl : latest.tickVolume <;> simp [volumeStrategyDD, h, hl]
  · intro votes hall th
    have hv : validVotes votes = [] := by
      rw [validVotes, List.filter_eq_nil_iff]
      intro a ha
      simp [hall a ha]
    simp [aggregateRatio, hv]
  · intro df price h
    match df with
    | none => simp [analyzeMarketDD]
    | some [] => simp [analyzeMarketDD]
    | some [f] => cases price <;> simp [analyzeMarketDD]
    | some (f1 :: f2 :: rest) =>
      exact absurd (h (f1 :: f2 :: rest) rfl) (by simp)

/-- Witness for C8 at an all-NaN frame, an empty close list and a
single-row DataFrame. -/
theorem C8_insufficient_data_abstains_witness :
    rsiStrategyDD ⟨PFloat.nan, PFloat.nan, PFloat.nan, PFloat.nan, PFloat.nan,
        PFloat.nan, PFloat.nan, PFloat.nan, 1, none⟩ = NO_SIGNAL ∧
    maStrategyDD ⟨PFloat.nan, PFloat.nan, PFloat.nan, PFloat.nan, PFloat.nan,
        PFloat.nan, PFloat.nan, PFloat.nan, 1, none⟩
      ⟨PFloat.nan, PFloat.nan, PFloat.nan, PFloat.nan, PFloat.nan,
        PFloat.nan, PFloat.nan, PFloat.nan, 1, none⟩ = NO_SIGNAL ∧
    momentumStrategyDD [] = NO_SIGNAL ∧
    analyzeMarketDD (some [⟨PFloat.nan, PFloat.nan, PFloat.nan, PFloat.nan, PFloat.nan,
        PFloat.nan, PFloat.nan, PFloat.nan, 1, none⟩]) (some ⟨1, 1⟩) = NO_SIGNAL :=
  ⟨C8_insufficient_data_abstains.1 _ rfl,
    C8_insufficient_data_abstains.2.2.2.2.1 _ _ (Or.inl rfl),
    C8_insufficient_data_abstains.2.2.2.2.2.1 [] (by norm_num),
    C8_insufficient_data_abstains.2.2.2.2.2.2.2.2 _ _
      (fun frames hf => by cases hf; simp)⟩

/-! ## Scheduler cycles (src/main.py lines 274-317, src/core/demo_tester.py
lines 66-126) -/

/-- Close requests issued by `PositionManager.manage_open_positions`
(lines 12-27): positions visited in order, one close request per fired
trigger. -/
def manageEvents : List PositionRec → (String → Option Tick) → ℚ → List TradeEvent
  | [], _, _ => []
  | p :: ps, ticks, now =>
    (match checkPositionManagement p (ticks p.symbol) now with
      | some _ => [TradeEvent.closeReq p.ticket]
      | none => []) ++ manageEvents ps ticks now

/-- The per-symbol signal loop of `live_trading` (main.py lines 296-308):
symbols in the configured order, each analyzed; a non-NO_SIGNAL decision
goes straight to `executor.execute_trade` — the live loop keeps no
last-signal state and consults no cooldown. -/
def liveSignalEvents : List String → (String → Signal) → ExecEnv → List TradeEvent
  | [], _, _ => []
  | s :: ss, sig, env =>
    TradeEvent.analyze s ::
      ((if sig s = NO_SIGNAL then [] else (executeTrade env s (sig s)).2) ++
        liveSignalEvents ss sig env)

/-- One cycle of `live_trading` (main.py lines 289-308):
`manager.manage_open_positions()` runs to completion first, then the
per-symbol signal loop. -/
def liveCycleTrace (positions : List PositionRec) (ticks : String → Option Tick)
    (now : ℚ) (pairs : List String) (sig : String → Signal) (env : ExecEnv) :
    List TradeEvent :=
  manageEvents positions ticks now ++ liveSignalEvents pairs sig env

/-- An entry of `DemoTester.trade_log`. -/
structure LogEntry where
  symbol : String
  timestamp : ℚ
deriving DecidableEq, Repr

/-- `DemoTester._should_execute_trade` lines 109-126: blocked when a
position for the symbol already exists, or when a logged trade for the
symbol is younger than 600 seconds (the 10-minute cooldown). -/
def shouldExecuteTrade (positionsForSymbol : List PositionRec)
    (log : List LogEntry) (now : ℚ) (symbol : String) : Bool :=
  positionsForSymbol.isEmpty &&
    (log.filter (fun t => decide (t.symbol = symbol) &&
      decide (now - t.timestamp < 600))).isEmpty

/-- The per-symbol loop of `DemoTester._check_and_trade` lines 79-107: like
the live loop but a firing signal is additionally gated by
`_should_execute_trade`. -/
def demoSignalEvents : List String → (String → Signal) → (String → List PositionRec) →
    List LogEntry → ℚ → ExecEnv → List TradeEvent
  | [], _, _, _, _, _ => []
  | s :: ss, sig, positionsOf, log, now, env =>
    TradeEvent.analyze s ::
      ((if sig s = NO_SIGNAL then []
        else if shouldExecuteTrade (positionsOf s) log now s then (executeTrade env s (sig s)).2
        else []) ++
        demoSignalEvents ss sig positionsOf log now env)

/-- Close requests and only close requests come out of position management. -/
def isCloseEvent : TradeEvent → Bool
  | TradeEvent.closeReq _ => true
  | _ => false

/-- The symbols the cycle analyzed, in order. -/
def analyzedSymbols (tr : List TradeEvent) : List String :=
  tr.filterMap (fun e =>
    match e with
    | TradeEvent.analyze s => some s
    | _ => none)

/-- `execute_trade` emits at most the single order request for its own
symbol and signal. -/
lemma executeTrade_orders (env : ExecEnv) (s : String) (sigv : Signal) :
    ∀ e ∈ (executeTrade env s sigv).2, e = TradeEvent.orderReq s sigv := by
  intro e he
  unfold executeTrade at he
  repeat' split at he
  all_goals try (simp only [apply_ite Prod.snd] at he; split at he)
  all_goals simp_all

/-- Everything position management emits is a close request. -/
lemma manageEvents_all_close (positions : List PositionRec)
    (ticks : String → Option Tick) (now : ℚ) :
    ∀ e ∈ manageEvents positions ticks now, isCloseEvent e = true := by
  induction positions with
  | nil => intro e he; simp [manageEvents] at he
  | cons p ps ih =>
    intro e he
    rw [manageEvents, List.mem_append] at he
    rcases he with he | he
    · split at he <;> simp_all [isCloseEvent]
    · exact ih e he

/-- The signal loop never emits a close request. -/
lemma liveSignalEvents_no_close (pairs : List String) (sig : String → Signal)
    (env : ExecEnv) :
    ∀ e ∈ liveSignalEvents pairs sig env, isCloseEvent e = false := by
  induction pairs with
  | nil => intro e he; simp [liveSignalEvents] at he
  | cons s ss ih =>
    intro e he
    rw [liveSignalEvents, List.mem_cons, List.mem_append] at he
    rcases he with rfl | he | he
    · rfl
    · split at he
      · simp at he
      · rw [executeTrade_orders _ _ _ e he]; rfl
    · exact ih e he

/-- The signal loop analyzes exactly the configured symbols, in order. -/
lemma liveSignalEvents_analyzed (pairs : List String) (sig : String → Signal)
    (env : ExecEnv) :
    analyzedSymbols (liveSignalEvents pairs sig env) = pairs := by
  induction pairs with
  | nil => rfl
  | cons s ss ih =>
    rw [liveSignalEvents, analyzedSymbols, List.filterMap_cons]
    simp only
    rw [List.filterMap_append]
    have hexec : ∀ (l : List TradeEvent), (∀ e ∈ l, e = TradeEvent.orderReq s (sig s)) →
        l.filterMap (fun e =>
          match e with
          | TradeEvent.analyze s => some s
          | _ => none) = [] := by
      intro l hl
      rw [List.filterMap_eq_nil_iff]
      intro a ha
      rw [hl a ha]
    split
    · rw [List.filterMap_nil, List.nil_append]
      exact congrArg (s :: ·) ih
    · rw [hexec _ (executeTrade_orders env s (sig s)), List.nil_append]
      exact congrArg (s :: ·) ih

/-- C9 (amended): in the live loop every close request of position
management precedes, by trace position, every order request of the signal
phase; the signal phase analyzes the configured symbols sequentially in
their configured order; and the 10-minute cooldown is enforced by the demo
tester's cycle, where a symbol with a logged trade younger than 600 seconds
gets no order request.  (The live loop itself performs no cooldown check —
see the counterexample — and the demo cycle performs no position
management.) -/
theorem C9_cycle_ordering :
    (∀ (positions : List PositionRec) (ticks : String → Option Tick) (now : ℚ)
      (pairs : List String) (sig : String → Signal) (env : ExecEnv) (i j t : ℕ)
      (s : String) (v : Signal),
      (liveCycleTrace positions ticks now pairs sig env).get? i =
        some (TradeEvent.closeReq t) →
      (liveCycleTrace positions ticks now pairs sig env).get? j =
        some (TradeEvent.orderReq s v) →
      i < j) ∧
    (∀ (positions : List PositionRec) (ticks : String → Option Tick) (now : ℚ)
      (pairs : List String) (sig : String → Signal) (env : ExecEnv),
      analyzedSymbols (liveCycleTrace positions ticks now pairs sig env) = pairs) ∧
    (∀ (pairs : List String) (sig : String → Signal)
      (positionsOf : String → List PositionRec) (log : List LogEntry) (now : ℚ)
      (env : ExecEnv) (s : String) (v : Signal),
      (∃ t ∈ log, t.symbol = s ∧ now - t.timestamp < 600) →
      TradeEvent.orderReq s v ∉ demoSignalEvents pairs sig positionsOf log now env) := by
  refine ⟨?_, ?_, ?_⟩
  · intro positions ticks now pairs sig env i j t s v hi hj
    have hilt : i < (manageEvents positions ticks now).length := by
      by_contra hge
      rw [not_lt] at hge
      rw [liveCycleTrace, List.get?_append_right hge] at hi
      have hmem := List.get?_mem hi
      have := liveSignalEvents_no_close pairs sig env _ hmem
      simp [isCloseEvent] at this
    have hjge : (manageEvents positions ticks now).length ≤ j := by
      by_contra hlt
      rw [not_le] at hlt
      rw [liveCycleTrace, List.get?_append hlt] at hj
      have hmem := List.get?_mem hj
      have := manageEvents_all_close positions ticks now _ hmem
      simp [isCloseEvent] at this
    exact lt_of_lt_of_le hilt hjge
  · intro positions ticks now pairs sig env
    rw [liveCycleTrace, analyzedSymbols, List.filterMap_append]
    have hmanage : (manageEvents positions ticks now).filterMap (fun e =>
        match e with
        | TradeEvent.analyze s => some s
        | _ => none) = [] := by
      rw [List.filterMap_eq_nil_iff]
      intro e he
      have := manageEvents_all_close positions ticks now e he
      cases e <;> simp_all [isCloseEvent]
    rw [hmanage, List.nil_append]
    exact liveSignalEvents_analyzed pairs sig env
  · intro pairs sig positionsOf log now env s v hcool
    rcases hcool with ⟨t, htmem, htsym, httime⟩
    have hblocked : shouldExecuteTrade (positionsOf s) log now s = false := by
      have hfilter : t ∈ log.filter (fun t => decide (t.symbol = s) &&
          decide (now - t.timestamp < 600)) :=
        List.mem_filter.mpr ⟨htmem, by simp [htsym, httime]⟩
      have hne : ¬ (log.filter (fun t => decide (t.symbol = s) &&
          decide (now - t.timestamp < 600))).isEmpty := by
        cases hf : log.filter (fun t => decide (t.symbol = s) &&
            decide (now - t.timestamp < 600)) with
        | nil => rw [hf] at hfilter; simp at hfilter
        | cons a l => simp [List.isEmpty]
      unfold shouldExecuteTrade
      simp only [Bool.and_eq_false_iff]
      right
      exact Bool.eq_false_iff.mpr hne
    induction pairs with
    | nil => simp [demoSignalEvents]
    | cons s' ss ih =>
      rw [demoSignalEvents]
      intro hmem
      rw [List.mem_cons, List.mem_append] at hmem
      rcases hmem with heq | hmem | hmem
      · exact TradeEvent.noConfusion heq
      · by_cases hs' : s' = s
        · subst hs'
          split at hmem
          · simp at hmem
          · rw [hblocked] at hmem
            simp at hmem
        · split at hmem
          · simp at hmem
          · split at hmem
            · have := executeTrade_orders env s' (sig s') _ hmem
              exact hs' (by injection this.symm)
            · simp at hmem
      · exact ih hmem

/-- A fully passing execution environment: connected, healthy account,
room for positions, a live tick. -/
def env0 : ExecEnv := ⟨true, ⟨3, 10⟩, some ⟨5000, 5000⟩, some 0, 3, some ⟨1, 1⟩, true, true⟩

/-- In `env0` every gate passes, so `execute_trade` sends exactly one order
request. -/
lemma executeTrade_env0 (s : String) :
    executeTrade env0 s BUY = (true, [TradeEvent.orderReq s BUY]) := by
  have hrisk : checkRiskManagement ⟨3, 10⟩ (some ⟨5000, 5000⟩) = true := by
    norm_num [checkRiskManagement]
  have hlot : ¬ (calculatePositionSize (some 5000) 3 s ≤ 0) :=
    not_le.mpr (round3_pos (sizingParams_minVolume_ge s) (le_max_left _ _))
  simp [executeTrade, env0, hrisk, checkMaxPositions, hlot]

/-- Counterexample to C9 as stated: the live loop consults no cooldown
state, so with the most recent signal for "EURUSD" only 60 seconds old
(well inside the 600-second window) the live cycle still emits the new
order request for "EURUSD". -/
theorem C9_live_cooldown_counterexample :
    TradeEvent.orderReq "EURUSD" BUY ∈
      liveCycleTrace [] (fun _ => none) 60 ["EURUSD"] (fun _ => BUY) env0 ∧
    (60 : ℚ) - 0 < 600 := by
  constructor
  · rw [liveCycleTrace]
    have hexec := executeTrade_env0 "EURUSD"
    simp [manageEvents, liveSignalEvents, hexec]
  · norm_num

/-- Witness for C9's amended theorem: a cycle with one stop-loss breach and
one BUY signal on the same symbol places the close request strictly before
the order request, and the demo cycle suppresses the order for a symbol
with a 60-second-old logged trade. -/
theorem C9_cycle_ordering_witness :
    ((liveCycleTrace [⟨7, "EURUSD", Side.buy, 1/100, 11/10, 0⟩] (fun _ => some ⟨1, 1⟩) 60
        ["EURUSD"] (fun _ => BUY) env0).get? 0 = some (TradeEvent.closeReq 7) ∧
      (liveCycleTrace [⟨7, "EURUSD", Side.buy, 1/100, 11/10, 0⟩] (fun _ => some ⟨1, 1⟩) 60
        ["EURUSD"] (fun _ => BUY) env0).get? 2 = some (TradeEvent.orderReq "EURUSD" BUY) ∧
      (0 : ℕ) < 2) ∧
    TradeEvent.orderReq "EURUSD" BUY ∉ demoSignalEvents ["EURUSD"] (fun _ => BUY)
      (fun _ => []) [⟨"EURUSD", 0⟩] 60 env0 := by
  have hpips : profitPips ⟨7, "EURUSD", Side.buy, 1/100, 11/10, 0⟩ ⟨1, 1⟩ = -1000 := by
    norm_num [profitPips]
  have hcheck : checkPositionManagement ⟨7, "EURUSD", Side.buy, 1/100, 11/10, 0⟩
      (some ⟨1, 1⟩) 60 = some ExitReason.stopLoss := by
    rw [checkPositionManagement]
    simp only [hpips]
    norm_num
  have htrace : liveCycleTrace [⟨7, "EURUSD", Side.buy, 1/100, 11/10, 0⟩]
      (fun _ => some ⟨1, 1⟩) 60 ["EURUSD"] (fun _ => BUY) env0 =
      [TradeEvent.closeReq 7, TradeEvent.analyze "EURUSD",
        TradeEvent.orderReq "EURUSD" BUY] := by
    have hexec := executeTrade_env0 "EURUSD"
    simp only [liveCycleTrace, manageEvents, liveSignalEvents, hcheck, hexec]
    rfl
  have h0 : (liveCycleTrace [⟨7, "EURUSD", Side.buy, 1/100, 11/10, 0⟩]
      (fun _ => some ⟨1, 1⟩) 60 ["EURUSD"] (fun _ => BUY) env0).get? 0 =
      some (TradeEvent.closeReq 7) := by rw [htrace]; rfl
  have h2 : (liveCycleTrace [⟨7, "EURUSD", Side.buy, 1/100, 11/10, 0⟩]
      (fun _ => some ⟨1, 1⟩) 60 ["EURUSD"] (fun _ => BUY) env0).get? 2 =
      some (TradeEvent.orderReq "EURUSD" BUY) := by rw [htrace]; rfl
  refine ⟨⟨h0, h2, ?_⟩, ?_⟩
  · exact C9_cycle_ordering.1 _ _ _ _ _ _ 0 2 7 "EURUSD" BUY h0 h2
  · exact C9_cycle_ordering.2.2 ["EURUSD"] (fun _ => BUY) (fun _ => []) [⟨"EURUSD", 0⟩]
      60 env0 "EURUSD" BUY ⟨⟨"EURUSD", 0⟩, by simp, rfl, by norm_num⟩

end Fotrab
